import Mathlib

/-!
Verification development for the message-submission pipeline in `app/main.py`:
an HTTP front door (`SimpleRouter.do_GET` / `SimpleRouter.do_POST`), a TCP
ingest worker (`socket_server` / `handle_client`), and a document store used
as an opaque persistence sink.

External collaborators (Python standard library and third-party services) are
modelled as explicit function parameters rather than re-implemented:
`urllib.parse.parse_qs` as `parseQs`, `json.loads` as `jsonLoads` (with
`none` standing for `json.JSONDecodeError`), `json.dumps` as `jsonDumps`,
UTF-8 replace-decoding as `decodeUtf8`, the outcome of the TCP relay
(`socket.create_connection` + `sendall`) as `relay`, the sink's
`insert_one` outcome as `insertOk`, `datetime.now()` as the string `ts`, and
the static-file directory as `fs : String → Option String` (path relative to
`BASE_DIR` to file content; `none` = file absent / `FileNotFoundError`).
-/

namespace MsgPipe

/-- Python whitespace predicate used by `str.strip()`: ASCII whitespace
(space, `\t`, `\n`, `\r`, `\x0b`, `\x0c`), the Unicode "other" whitespace
control characters, and the Unicode space separators. -/
def isPySpace (c : Char) : Bool :=
  c = ' ' || c = '\t' || c = '\n' || c = '\r' || c = '\x0b' || c = '\x0c' ||
  c = '\x1c' || c = '\x1d' || c = '\x1e' || c = '\x1f' || c = '\x85' || c = '\xa0' ||
  c = ' ' || (' ' ≤ c && c ≤ ' ') || c = ' ' || c = ' ' ||
  c = ' ' || c = ' ' || c = '　'

/-- Characters of a string after Python `str.strip()`: drop whitespace from
the front, then from the back. -/
def pyStripList (l : List Char) : List Char :=
  (l.dropWhile isPySpace).rdropWhile isPySpace

/-- Python `s.strip()` with no argument: remove leading and trailing
whitespace. -/
def pyStrip (s : String) : String :=
  String.mk (pyStripList s.data)

/-- JSON values as produced by `json.loads` / consumed by `json.dumps`.
Numbers are modelled as integers (no claim depends on floats); objects are
insertion-ordered association lists with distinct keys (the dictionary
`json.loads` returns). -/
inductive JValue : Type where
  | null : JValue
  | bool : Bool → JValue
  | num : Int → JValue
  | str : String → JValue
  | arr : List JValue → JValue
  | obj : List (String × JValue) → JValue

/-- Python exceptions that can escape the modelled code paths. -/
inductive PyErr : Type where
  | attributeError : PyErr
  | indexError : PyErr
deriving DecidableEq

/-- Python truthiness of a decoded JSON value (`bool(v)`): `None`, `False`,
zero, and empty string/list/dict are falsy. -/
def pyTruthy : JValue → Bool
  | .null => false
  | .bool b => b
  | .num n => n != 0
  | .str s => s != ""
  | .arr l => !l.isEmpty
  | .obj l => !l.isEmpty

/-- Python `doc_in.get(k)` (main.py lines 129-130): `dict.get` returns the
value or `None` (modelled as `Option`); calling `.get` on a non-dict decode
result raises `AttributeError`. -/
def jGet : JValue → String → Except PyErr (Option JValue)
  | .obj kvs, k => .ok (kvs.lookup k)
  | _, _ => .error .attributeError

/-- Python `(v or "").strip()` (main.py lines 129-130): absent (`None`) or
falsy values collapse to `""`; a truthy string is stripped; `.strip()` on a
truthy non-string raises `AttributeError`. -/
def orEmptyStrip : Option JValue → Except PyErr String
  | none => .ok ""
  | some v =>
    if pyTruthy v then
      match v with
      | .str s => .ok (pyStrip s)
      | _ => .error .attributeError
    else .ok ""

/-- The persisted entity (main.py lines 127-131): exactly the three fields
`date`, `username`, `message`. -/
structure Record where
  date : String
  username : String
  message : String
deriving DecidableEq

/-- Python `json.loads(raw) if raw else {}` guarded by
`except json.JSONDecodeError: doc_in = {}` (main.py lines 122-125):
an empty payload skips parsing, a parse failure is normalized to the empty
dictionary. -/
def decodePayload (jsonLoads : String → Option JValue) (raw : String) : JValue :=
  if raw = "" then .obj []
  else
    match jsonLoads raw with
    | some v => v
    | none => .obj []

/-- Observable outcome of one handled TCP connection: the record handed to
`insert_one`, the number of insert calls made (always one per connection in
the source), and the record actually persisted (`none` when the sink
failed — the failure is swallowed). -/
structure ConnResult where
  attempted : Record
  insertAttempts : Nat
  persisted : Option Record
deriving DecidableEq

/-- Document construction of `handle_client` (main.py lines 121-131):
decode the received payload, then build the dictionary literal with the
server-assigned timestamp and the two normalized fields, in evaluation
order. An uncaught `AttributeError` from a non-dict decode result or a
truthy non-string field is surfaced as `Except.error`. -/
def mkDoc (jsonLoads : String → Option JValue) (ts raw : String) : Except PyErr Record := do
  let doc_in := decodePayload jsonLoads raw
  let uv ← jGet doc_in "username"
  let u ← orEmptyStrip uv
  let mv ← jGet doc_in "message"
  let m ← orEmptyStrip mv
  return { date := ts, username := u, message := m }

/-- Processing part of `handle_client` (main.py lines 121-136): build the
document, then attempt exactly one insert, swallowing any sink failure
(`except Exception: pass`). -/
def handleClientBody (jsonLoads : String → Option JValue) (insertOk : Record → Bool)
    (ts raw : String) : Except PyErr ConnResult :=
  (mkDoc jsonLoads ts raw).map (fun doc =>
    { attempted := doc, insertAttempts := 1,
      persisted := if insertOk doc then some doc else none })

/-- Socket events observable by the peer of one ingest connection. -/
inductive SockEvt : Type where
  | recvd : List UInt8 → SockEvt
  | recvdEOF : SockEvt
  | sent : List UInt8 → SockEvt
  | closed : SockEvt
deriving DecidableEq

/-- The `recv` loop of `handle_client` (main.py lines 115-120): `incoming`
is the sequence of chunks `conn.recv(4096)` returns; an empty chunk (or the
list running out, i.e. peer EOF) breaks the loop. Returns the event trace
and the accumulated bytes `b"".join(chunks)`. -/
def recvLoop : List (List UInt8) → List SockEvt × List UInt8
  | [] => ([SockEvt.recvdEOF], [])
  | c :: rest =>
    if c.isEmpty then ([SockEvt.recvdEOF], [])
    else (SockEvt.recvd c :: (recvLoop rest).1, c ++ (recvLoop rest).2)

/-- Whole of `handle_client` (main.py lines 113-136): read to EOF, decode
UTF-8 (with replacement) and process; `with conn:` closes the socket at
block exit on every path, and nothing is ever written back. -/
def handleClientRun (jsonLoads : String → Option JValue)
    (decodeUtf8 : List UInt8 → String) (insertOk : Record → Bool)
    (ts : String) (incoming : List (List UInt8)) :
    List SockEvt × Except PyErr ConnResult :=
  let r := recvLoop incoming
  (r.1 ++ [SockEvt.closed], handleClientBody jsonLoads insertOk ts (decodeUtf8 r.2))

/-- The relay payload `json.dumps({"username": username, "message": message})`
(main.py line 80) at the value level: an object with exactly those two keys,
in insertion order. -/
def mkPayload (u m : String) : JValue :=
  .obj [("username", JValue.str u), ("message", JValue.str m)]

/-- An HTTP request as seen by the handler: the path, the parsed
`Content-Length` header (`none` when the header is absent, in which case the
source falls back to the literal `"0"`), and the available request body. -/
structure HttpRequest where
  path : String
  contentLength : Option Nat
  body : String

/-- Response bodies: verbatim content bytes, or the built-in
`send_error`-generated HTML page. -/
inductive RespBody : Type where
  | content : String → RespBody
  | builtinError : Nat → String → RespBody
deriving DecidableEq

/-- An HTTP response: status, `Content-Type` header, `Location` header,
body. -/
structure HttpResponse where
  status : Nat
  contentType : Option String
  location : Option String
  body : RespBody
deriving DecidableEq

/-- Fallback `self.send_error(404, "Not Found")` (main.py line 53): the
handler's built-in error page with its default error content type. -/
def builtin404 : HttpResponse :=
  { status := 404, contentType := some "text/html;charset=utf-8", location := none,
    body := RespBody.builtinError 404 "Not Found" }

/-- `SimpleRouter._respond_404` (main.py lines 48-53): serve `error.html`
with status 404 when it exists, else the built-in 404 page. -/
def respond404 (fs : String → Option String) : HttpResponse :=
  match fs "error.html" with
  | some c => { status := 404, contentType := some "text/html; charset=utf-8", location := none,
                body := RespBody.content c }
  | none => builtin404

/-- `SimpleRouter._respond_file` (main.py lines 37-46): serve the file with
the given content type, falling back to the 404 path when the file is
missing. -/
def respondFile (fs : String → Option String) (path ctype : String) : HttpResponse :=
  match fs path with
  | some c => { status := 200, contentType := some ctype, location := none,
                body := RespBody.content c }
  | none => respond404 fs

/-- `SimpleRouter.do_GET` (main.py lines 55-67): the static routing table. -/
def doGET (fs : String → Option String) (path : String) : HttpResponse :=
  if path = "/" || path = "/index.html" then
    respondFile fs "index.html" "text/html; charset=utf-8"
  else if path = "/message.html" then
    respondFile fs "message.html" "text/html; charset=utf-8"
  else if path = "/style.css" then
    respondFile fs "static/style.css" "text/css; charset=utf-8"
  else if path = "/logo.png" then
    respondFile fs "static/logo.png" "image/png"
  else
    respond404 fs

/-- Python `(form.get(k, [""]))[0].strip()` (main.py lines 77-78): default a
missing key to `[""]`, take the first value, strip it; indexing an empty
value list raises `IndexError` (`parse_qs` never produces one). -/
def extractField (form : List (String × List String)) (k : String) : Except PyErr String :=
  match (form.lookup k).getD [""] with
  | [] => .error .indexError
  | v :: _ => .ok (pyStrip v)

/-- Python `self.rfile.read(content_length)` (main.py line 74): at most
`cl` characters of the available body. -/
def bodyRead (cl : Nat) (body : String) : String :=
  String.mk (body.data.take cl)

/-- Observable outcome of one `do_POST` call: the HTTP response, how many
relay attempts were made, the payload built for relay (`none` when routing
never reached the relay), and the payload actually delivered to the ingest
worker (`none` when the relay failed). -/
structure PostResult where
  response : HttpResponse
  relayAttempts : Nat
  payloadBuilt : Option JValue
  delivered : Option JValue

/-- `SimpleRouter.do_POST` (main.py lines 69-97): non-`/message` paths get
the 404 treatment; otherwise read the body up to `Content-Length` (header
absent ⇒ `"0"`), parse the form, extract and strip the two fields, build the
JSON payload, attempt the relay exactly once, and answer 302 (redirect to
`/`) on success or 500 with the diagnostic text on failure. -/
def doPOST (parseQs : String → List (String × List String)) (fs : String → Option String)
    (relay : Except String Unit) (req : HttpRequest) : Except PyErr PostResult :=
  if req.path ≠ "/message" then
    .ok { response := respond404 fs, relayAttempts := 0, payloadBuilt := none, delivered := none }
  else do
    let cl := req.contentLength.getD 0
    let form := parseQs (bodyRead cl req.body)
    let username ← extractField form "username"
    let message ← extractField form "message"
    let payload := mkPayload username message
    match relay with
    | .error e =>
      return { response := { status := 500, contentType := some "text/plain; charset=utf-8",
                             location := none,
                             body := RespBody.content ("Socket server error: " ++ e) },
               relayAttempts := 1, payloadBuilt := some payload, delivered := none }
    | .ok _ =>
      return { response := { status := 302, contentType := none, location := some "/",
                             body := RespBody.content "" },
               relayAttempts := 1, payloadBuilt := some payload, delivered := some payload }

/-- A concrete static-file directory used to instantiate theorems on
specific inputs: the four routed resources exist, `error.html` does not. -/
def exFs : String → Option String := fun p =>
  if p = "index.html" then some "IDX"
  else if p = "message.html" then some "MSG"
  else if p = "static/style.css" then some "CSS"
  else if p = "static/logo.png" then some "PNG"
  else none

/-! ## Helper lemmas -/

/-- Dropping leading and trailing elements by the same predicate commute. -/
theorem dropWhile_rdropWhile_comm {α : Type} (p : α → Bool) (l : List α) :
    List.dropWhile p (List.rdropWhile p l) = List.rdropWhile p (List.dropWhile p l) := by
  induction l using List.reverseRecOn with
  | nil => simp
  | append_singleton xs a ih =>
    by_cases ha : p a
    · rw [List.rdropWhile_concat_pos p xs a ha, List.dropWhile_append]
      by_cases hd : (xs.dropWhile p).isEmpty
      · have hd' : xs.dropWhile p = [] := List.isEmpty_iff.mp hd
        rw [if_pos hd]
        simp [List.dropWhile_cons, ha, ih, hd']
      · rw [if_neg hd, List.rdropWhile_concat_pos _ _ _ ha, ih]
    · rw [List.rdropWhile_concat_neg p xs a ha, List.dropWhile_append]
      by_cases hd : (xs.dropWhile p).isEmpty
      · rw [if_pos hd]
        simp [List.dropWhile_cons, ha, List.rdropWhile_singleton]
      · rw [if_neg hd, List.rdropWhile_concat_neg _ _ _ ha]

/-- Stripping both ends is idempotent at the character-list level. -/
theorem pyStripList_idem (l : List Char) : pyStripList (pyStripList l) = pyStripList l := by
  unfold pyStripList
  rw [dropWhile_rdropWhile_comm, List.rdropWhile_idempotent, List.dropWhile_idempotent]

/-- Python `str.strip()` is idempotent. -/
theorem pyStrip_idem (s : String) : pyStrip (pyStrip s) = pyStrip s := by
  show String.mk (pyStripList (pyStripList s.data)) = String.mk (pyStripList s.data)
  rw [pyStripList_idem]

/-- Stripping the empty string gives the empty string. -/
theorem pyStrip_empty : pyStrip "" = "" := rfl

/-- On a string value, `(v or "").strip()` is exactly `strip`: a non-empty
string is truthy and gets stripped; the empty string is falsy and collapses
to `""`, which equals its own strip. -/
theorem orEmptyStrip_str (u : String) :
    orEmptyStrip (some (JValue.str u)) = Except.ok (pyStrip u) := by
  by_cases h : u = ""
  · subst h; rfl
  · simp [orEmptyStrip, pyTruthy, h]

/-- Inversion for `mkDoc`: a successful construction decodes to some
dictionary, normalizes the two fields without raising, and carries the
server timestamp. -/
theorem mkDoc_ok_shape (jsonLoads : String → Option JValue) (ts raw : String) (doc : Record)
    (h : mkDoc jsonLoads ts raw = Except.ok doc) :
    ∃ kvs u m, decodePayload jsonLoads raw = JValue.obj kvs
      ∧ orEmptyStrip (kvs.lookup "username") = Except.ok u
      ∧ orEmptyStrip (kvs.lookup "message") = Except.ok m
      ∧ doc = ⟨ts, u, m⟩ := by
  cases hd : decodePayload jsonLoads raw <;>
    simp only [mkDoc, hd, jGet, bind, Except.bind] at h
  case obj kvs =>
    cases hu : orEmptyStrip (kvs.lookup "username") <;> rw [hu] at h
    case error => exact absurd h (by simp)
    case ok u =>
      cases hm : orEmptyStrip (kvs.lookup "message") <;> rw [hm] at h
      case error => exact absurd h (by simp)
      case ok m =>
        simp only [pure, Except.pure, Except.ok.injEq] at h
        exact ⟨kvs, u, m, rfl, hu, hm, h.symm⟩
  all_goals exact absurd h (by simp)

/-- Inversion for `handleClientBody`: a successful run decodes to some
dictionary, normalizes the two fields without raising, and returns the
record with the server timestamp, one insert attempt, and best-effort
persistence. -/
theorem handleClientBody_ok_shape (jsonLoads : String → Option JValue)
    (insertOk : Record → Bool) (ts raw : String) (res : ConnResult)
    (h : handleClientBody jsonLoads insertOk ts raw = Except.ok res) :
    ∃ kvs u m, decodePayload jsonLoads raw = JValue.obj kvs
      ∧ orEmptyStrip (kvs.lookup "username") = Except.ok u
      ∧ orEmptyStrip (kvs.lookup "message") = Except.ok m
      ∧ res = { attempted := ⟨ts, u, m⟩, insertAttempts := 1,
                persisted := if insertOk ⟨ts, u, m⟩ then some ⟨ts, u, m⟩ else none } := by
  cases hd : mkDoc jsonLoads ts raw with
  | error e => rw [handleClientBody, hd] at h; exact absurd h (by simp [Except.map])
  | ok doc =>
    rw [handleClientBody, hd] at h
    simp only [Except.map, Except.ok.injEq] at h
    obtain ⟨kvs, u, m, hdp, hu, hm, hdoc⟩ := mkDoc_ok_shape _ _ _ _ hd
    subst hdoc
    exact ⟨kvs, u, m, hdp, hu, hm, h.symm⟩

/-- Forward computation for `mkDoc` when the payload decodes to a
dictionary and both field normalizations succeed. -/
theorem mkDoc_obj (jsonLoads : String → Option JValue)
    (ts raw : String) (kvs : List (String × JValue)) (u m : String)
    (hd : decodePayload jsonLoads raw = JValue.obj kvs)
    (hu : orEmptyStrip (kvs.lookup "username") = Except.ok u)
    (hm : orEmptyStrip (kvs.lookup "message") = Except.ok m) :
    mkDoc jsonLoads ts raw = Except.ok ⟨ts, u, m⟩ := by
  simp [mkDoc, hd, jGet, hu, hm, bind, Except.bind, pure, Except.pure]

/-- Forward computation for `handleClientBody` when the payload decodes to a
dictionary and both field normalizations succeed. -/
theorem handleClientBody_obj (jsonLoads : String → Option JValue)
    (insertOk : Record → Bool) (ts raw : String) (kvs : List (String × JValue)) (u m : String)
    (hd : decodePayload jsonLoads raw = JValue.obj kvs)
    (hu : orEmptyStrip (kvs.lookup "username") = Except.ok u)
    (hm : orEmptyStrip (kvs.lookup "message") = Except.ok m) :
    handleClientBody jsonLoads insertOk ts raw =
      Except.ok { attempted := ⟨ts, u, m⟩, insertAttempts := 1,
                  persisted := if insertOk ⟨ts, u, m⟩ then some ⟨ts, u, m⟩ else none } := by
  rw [handleClientBody, mkDoc_obj jsonLoads ts raw kvs u m hd hu hm]
  rfl

/-- A missing form key falls back to `[""]` whose first element strips to
the empty string. -/
theorem extractField_absent (form : List (String × List String)) (k : String)
    (h : form.lookup k = none) : extractField form k = Except.ok "" := by
  simp [extractField, h, pyStrip_empty]

/-- A present form key yields the strip of its first value. -/
theorem extractField_found (form : List (String × List String)) (k v : String)
    (vs : List String) (h : form.lookup k = some (v :: vs)) :
    extractField form k = Except.ok (pyStrip v) := by
  simp [extractField, h]

/-- On any form whose value lists are non-empty (an invariant of
`parse_qs` output), field extraction never raises. -/
theorem extractField_ok (form : List (String × List String)) (k : String)
    (hwf : ∀ kv ∈ form, kv.2 ≠ []) : ∃ v, extractField form k = Except.ok v := by
  cases hl : form.lookup k with
  | none => exact ⟨"", extractField_absent form k hl⟩
  | some vs =>
    cases vs with
    | nil =>
      obtain ⟨l₁, l₂, hform, -⟩ := List.lookup_eq_some_iff.mp hl
      have hmem : (k, ([] : List String)) ∈ form := by
        rw [hform]; exact List.mem_append_right _ (List.mem_cons_self _ _)
      exact absurd rfl (hwf _ hmem)
    | cons v vs' => exact ⟨pyStrip v, extractField_found form k v vs' hl⟩

/-- Field extraction as default-then-first-then-strip: on well-formed forms
it equals stripping the head of the looked-up value list, with `[""]` as
the fallback for an absent key. -/
theorem extractField_eq_headD (form : List (String × List String)) (k : String)
    (hwf : ∀ kv ∈ form, kv.2 ≠ []) :
    extractField form k = Except.ok (pyStrip (((form.lookup k).getD [""]).headD "")) := by
  cases hl : form.lookup k with
  | none => rw [extractField_absent form k hl]; simp [pyStrip_empty]
  | some vs =>
    cases vs with
    | nil =>
      obtain ⟨l₁, l₂, hform, -⟩ := List.lookup_eq_some_iff.mp hl
      have hmem : (k, ([] : List String)) ∈ form := by
        rw [hform]; exact List.mem_append_right _ (List.mem_cons_self _ _)
      exact absurd rfl (hwf _ hmem)
    | cons v vs' => rw [extractField_found form k v vs' hl]; simp

/-- Reading with the body's own length recovers the full body. -/
theorem bodyRead_full (s : String) : bodyRead s.data.length s = s := by
  cases s
  simp [bodyRead]

/-- Reading zero bytes gives the empty string. -/
theorem bodyRead_zero (s : String) : bodyRead 0 s = "" := by
  cases s
  simp [bodyRead]

/-- Forward computation for `doPOST` on the `/message` route once both
field extractions succeed: one relay attempt, then 302 or 500 according to
the relay outcome. -/
theorem doPOST_message (parseQs : String → List (String × List String))
    (fs : String → Option String) (relay : Except String Unit) (req : HttpRequest)
    (hpath : req.path = "/message") (u m : String)
    (hu : extractField (parseQs (bodyRead (req.contentLength.getD 0) req.body)) "username"
        = Except.ok u)
    (hm : extractField (parseQs (bodyRead (req.contentLength.getD 0) req.body)) "message"
        = Except.ok m) :
    doPOST parseQs fs relay req =
      match relay with
      | .error e =>
        Except.ok { response := { status := 500, contentType := some "text/plain; charset=utf-8",
                                  location := none,
                                  body := RespBody.content ("Socket server error: " ++ e) },
                    relayAttempts := 1, payloadBuilt := some (mkPayload u m),
                    delivered := none }
      | .ok _ =>
        Except.ok { response := { status := 302, contentType := none, location := some "/",
                                  body := RespBody.content "" },
                    relayAttempts := 1, payloadBuilt := some (mkPayload u m),
                    delivered := some (mkPayload u m) } := by
  rw [doPOST, if_neg (by rw [hpath]; simp)]
  simp only [bind, Except.bind, hu, hm]
  cases relay <;> rfl

/-- The receive loop of the ingest worker never yields a send event. -/
theorem recvLoop_no_sent (incoming : List (List UInt8)) (d : List UInt8) :
    SockEvt.sent d ∉ (recvLoop incoming).1 := by
  induction incoming with
  | nil => simp [recvLoop]
  | cons c rest ih =>
    by_cases hc : c.isEmpty <;> simp [recvLoop, hc]
    exact ih

/-- The receive loop always runs to end-of-file. -/
theorem recvLoop_has_eof (incoming : List (List UInt8)) :
    SockEvt.recvdEOF ∈ (recvLoop incoming).1 := by
  induction incoming with
  | nil => simp [recvLoop]
  | cons c rest ih =>
    by_cases hc : c.isEmpty <;> simp [recvLoop, hc]
    exact ih

/-! ## Claim theorems -/

/-- Claim C1: every record the ingest worker persists has exactly the three
fields of `Record`; its `date` is the server-assigned timestamp `ts`
regardless of payload content (so never client-supplied, and extra payload
keys cannot reach the record); whatever is persisted is the one constructed
record; a payload that is a serialized Submission yields the trimmed
submission fields, and an empty or unparseable payload yields empty
strings. -/
theorem C1_persisted_record_fields (jsonLoads : String → Option JValue)
    (insertOk : Record → Bool) (ts raw : String) (res : ConnResult)
    (h : handleClientBody jsonLoads insertOk ts raw = Except.ok res) :
    res.attempted.date = ts
    ∧ (∀ r, res.persisted = some r → r = res.attempted)
    ∧ (∀ u m, decodePayload jsonLoads raw = mkPayload u m →
        res.attempted.username = pyStrip u ∧ res.attempted.message = pyStrip m)
    ∧ ((raw = "" ∨ jsonLoads raw = none) →
        res.attempted.username = "" ∧ res.attempted.message = "") := by
  obtain ⟨kvs, u, m, hd, hu, hm, hres⟩ := handleClientBody_ok_shape _ _ _ _ _ h
  subst hres
  refine ⟨rfl, ?_, ?_, ?_⟩
  · intro r hr
    by_cases hi : insertOk ⟨ts, u, m⟩ <;> simp [hi] at hr
    exact hr.symm
  · intro u' m' heq
    rw [hd] at heq
    injection heq with hkvs
    subst hkvs
    rw [show List.lookup "username"
          [("username", JValue.str u'), ("message", JValue.str m')] = some (JValue.str u')
        from rfl, orEmptyStrip_str] at hu
    rw [show List.lookup "message"
          [("username", JValue.str u'), ("message", JValue.str m')] = some (JValue.str m')
        from rfl, orEmptyStrip_str] at hm
    exact ⟨(Except.ok.inj hu).symm, (Except.ok.inj hm).symm⟩
  · intro hmal
    have hempty : decodePayload jsonLoads raw = JValue.obj [] := by
      rcases hmal with hmal | hmal
      · simp [decodePayload, hmal]
      · by_cases hr : raw = "" <;> simp [decodePayload, hr, hmal]
    rw [hd] at hempty
    injection hempty with hkvs
    subst hkvs
    rw [show List.lookup "username" ([] : List (String × JValue)) = none from rfl] at hu
    rw [show List.lookup "message" ([] : List (String × JValue)) = none from rfl] at hm
    exact ⟨(Except.ok.inj hu).symm, (Except.ok.inj hm).symm⟩

/-- Witness for C1: a concrete run over a Submission payload with padded
fields; the persisted record carries the trimmed fields and the server
timestamp. -/
theorem C1_witness :
    (handleClientBody (fun _ => some (mkPayload " Alice " " hi there "))
        (fun _ => true) "2026-10-12" "p" =
      Except.ok { attempted := ⟨"2026-10-12", "Alice", "hi there"⟩, insertAttempts := 1,
                  persisted := some ⟨"2026-10-12", "Alice", "hi there"⟩ })
    ∧ ({ attempted := ⟨"2026-10-12", "Alice", "hi there"⟩, insertAttempts := 1,
         persisted := some ⟨"2026-10-12", "Alice", "hi there"⟩ } : ConnResult).attempted.date
        = "2026-10-12" := by
  have h : handleClientBody (fun _ => some (mkPayload " Alice " " hi there "))
      (fun _ => true) "2026-10-12" "p" =
      Except.ok { attempted := ⟨"2026-10-12", "Alice", "hi there"⟩, insertAttempts := 1,
                  persisted := some ⟨"2026-10-12", "Alice", "hi there"⟩ } := by
    rw [handleClientBody_obj (fun _ => some (mkPayload " Alice " " hi there "))
      (fun _ => true) "2026-10-12" "p" _ "Alice" "hi there" rfl
      (by rw [show List.lookup "username"
            [("username", JValue.str " Alice "), ("message", JValue.str " hi there ")]
            = some (JValue.str " Alice ") from rfl, orEmptyStrip_str]; rfl)
      (by rw [show List.lookup "message"
            [("username", JValue.str " Alice "), ("message", JValue.str " hi there ")]
            = some (JValue.str " hi there ") from rfl, orEmptyStrip_str]; rfl)]
    rfl
  exact ⟨h, (C1_persisted_record_fields _ _ _ _ _ h).1 ▸ rfl⟩

/-- Claim C4: an empty payload, or one `json.loads` rejects, is treated as
the empty structure — both fields default to the empty string — and the
worker still constructs a record and attempts the insert (one attempt, and
the connection handling succeeds rather than being rejected). -/
theorem C4_malformed_payload_still_processed (jsonLoads : String → Option JValue)
    (insertOk : Record → Bool) (ts raw : String)
    (h : raw = "" ∨ jsonLoads raw = none) :
    handleClientBody jsonLoads insertOk ts raw =
      Except.ok { attempted := ⟨ts, "", ""⟩, insertAttempts := 1,
                  persisted := if insertOk ⟨ts, "", ""⟩ then some ⟨ts, "", ""⟩ else none } := by
  have hd : decodePayload jsonLoads raw = JValue.obj [] := by
    rcases h with h | h
    · simp [decodePayload, h]
    · by_cases hr : raw = "" <;> simp [decodePayload, hr, h]
  exact handleClientBody_obj jsonLoads insertOk ts raw [] "" "" hd rfl rfl

/-- Witness for C4: a concrete non-JSON payload (the parse rejects it)
still yields one insert attempt of the all-empty record. -/
theorem C4_witness :
    ((fun (_ : String) => (none : Option JValue)) "]not json" = none)
    ∧ handleClientBody (fun _ => none) (fun _ => true) "2026-10-12" "]not json" =
        Except.ok { attempted := ⟨"2026-10-12", "", ""⟩, insertAttempts := 1,
                    persisted := some ⟨"2026-10-12", "", ""⟩ } :=
  ⟨rfl, by
    rw [C4_malformed_payload_still_processed (fun _ => none) (fun _ => true) "2026-10-12"
      "]not json" (Or.inr rfl)]
    rfl⟩

/-- Claim C5: a failing sink insert is discarded — the run differs from the
always-succeeding sink only in the `persisted` component (same attempted
record, same single insert attempt, same success/error status), exactly one
insert is attempted, and the socket-event trace of the connection is
identical, so nothing is surfaced to any caller. -/
theorem C5_insert_failure_discarded (jsonLoads : String → Option JValue)
    (insertOk : Record → Bool) (ts raw : String) :
    (handleClientBody jsonLoads insertOk ts raw).map (fun r => (r.attempted, r.insertAttempts))
      = (handleClientBody jsonLoads (fun _ => true) ts raw).map
          (fun r => (r.attempted, r.insertAttempts))
    ∧ (∀ res, handleClientBody jsonLoads insertOk ts raw = Except.ok res →
        res.insertAttempts = 1)
    ∧ (∀ decodeUtf8 incoming,
        (handleClientRun jsonLoads decodeUtf8 insertOk ts incoming).1
          = (handleClientRun jsonLoads decodeUtf8 (fun _ => true) ts incoming).1) := by
  refine ⟨?_, ?_, ?_⟩
  · rw [handleClientBody, handleClientBody]
    cases mkDoc jsonLoads ts raw with
    | error e => rfl
    | ok doc => rfl
  · intro res h
    obtain ⟨_, _, _, _, _, _, hres⟩ := handleClientBody_ok_shape _ _ _ _ _ h
    subst hres
    rfl
  · intro decodeUtf8 incoming
    rfl

/-- Witness for C5: on a concrete run, a sink that rejects every insert
still yields the same attempted record and exactly one attempt. -/
theorem C5_witness :
    (handleClientBody (fun _ => none) (fun _ => false) "2026-10-12" "x" =
      Except.ok { attempted := ⟨"2026-10-12", "", ""⟩, insertAttempts := 1, persisted := none })
    ∧ ({ attempted := ⟨"2026-10-12", "", ""⟩, insertAttempts := 1,
         persisted := none } : ConnResult).insertAttempts = 1 := by
  have h : handleClientBody (fun _ => none) (fun _ => false) "2026-10-12" "x" =
      Except.ok { attempted := ⟨"2026-10-12", "", ""⟩, insertAttempts := 1,
                  persisted := none } := by
    rw [C4_malformed_payload_still_processed (fun _ => none) (fun _ => false) "2026-10-12"
      "x" (Or.inr rfl)]
    rfl
  exact ⟨h, (C5_insert_failure_discarded (fun _ => none) (fun _ => false)
    "2026-10-12" "x").2.1 _ h⟩

/-- Claim C7: the front door serializes the trimmed Submission, and feeding
that payload through the worker (with the JSON codec round-tripping, a
property of the `json` library) yields exactly the trimmed fields — the
worker's second strip is a no-op because stripping is idempotent. -/
theorem C7_wire_roundtrip (jsonDumps : JValue → String) (jsonLoads : String → Option JValue)
    (insertOk : Record → Bool) (ts u m : String)
    (hrt : jsonLoads (jsonDumps (mkPayload (pyStrip u) (pyStrip m)))
        = some (mkPayload (pyStrip u) (pyStrip m)))
    (hne : jsonDumps (mkPayload (pyStrip u) (pyStrip m)) ≠ "") :
    handleClientBody jsonLoads insertOk ts (jsonDumps (mkPayload (pyStrip u) (pyStrip m)))
      = Except.ok { attempted := ⟨ts, pyStrip u, pyStrip m⟩, insertAttempts := 1,
                    persisted := if insertOk ⟨ts, pyStrip u, pyStrip m⟩
                                 then some ⟨ts, pyStrip u, pyStrip m⟩ else none }
    ∧ pyStrip (pyStrip u) = pyStrip u ∧ pyStrip (pyStrip m) = pyStrip m := by
  have hd : decodePayload jsonLoads (jsonDumps (mkPayload (pyStrip u) (pyStrip m)))
      = mkPayload (pyStrip u) (pyStrip m) := by
    simp [decodePayload, hne, hrt]
  rw [show mkPayload (pyStrip u) (pyStrip m)
      = JValue.obj [("username", JValue.str (pyStrip u)), ("message", JValue.str (pyStrip m))]
    from rfl] at hd
  refine ⟨handleClientBody_obj _ _ _ _ _ _ _ hd ?_ ?_, pyStrip_idem u, pyStrip_idem m⟩
  · rw [show List.lookup "username"
        [("username", JValue.str (pyStrip u)), ("message", JValue.str (pyStrip m))]
        = some (JValue.str (pyStrip u)) from rfl, orEmptyStrip_str, pyStrip_idem]
  · rw [show List.lookup "message"
        [("username", JValue.str (pyStrip u)), ("message", JValue.str (pyStrip m))]
        = some (JValue.str (pyStrip m)) from rfl, orEmptyStrip_str, pyStrip_idem]

/-- Witness for C7: a concrete codec pair that round-trips the one payload
in question. -/
theorem C7_witness :
    ((fun (_ : String) => some (mkPayload (pyStrip " a ") (pyStrip "b")))
        ((fun (_ : JValue) => "w") (mkPayload (pyStrip " a ") (pyStrip "b")))
      = some (mkPayload (pyStrip " a ") (pyStrip "b")))
    ∧ handleClientBody (fun _ => some (mkPayload (pyStrip " a ") (pyStrip "b")))
        (fun _ => true) "T" ((fun (_ : JValue) => "w") (mkPayload (pyStrip " a ") (pyStrip "b")))
      = Except.ok { attempted := ⟨"T", pyStrip " a ", pyStrip "b"⟩, insertAttempts := 1,
                    persisted := some ⟨"T", pyStrip " a ", pyStrip "b"⟩ } :=
  ⟨rfl, by
    rw [(C7_wire_roundtrip (fun _ => "w") (fun _ => some (mkPayload (pyStrip " a ") (pyStrip "b")))
      (fun _ => true) "T" " a " "b" rfl (by simp)).1]
    rfl⟩

/-- Claim C8: per accepted connection the worker reads until end-of-file,
never emits a send event, and the last event is the close of the
connection, in every case (the processing outcome does not influence the
trace). -/
theorem C8_reads_to_eof_never_responds (jsonLoads : String → Option JValue)
    (decodeUtf8 : List UInt8 → String) (insertOk : Record → Bool) (ts : String)
    (incoming : List (List UInt8)) :
    (∀ d, SockEvt.sent d ∉ (handleClientRun jsonLoads decodeUtf8 insertOk ts incoming).1)
    ∧ (handleClientRun jsonLoads decodeUtf8 insertOk ts incoming).1.getLast?
        = some SockEvt.closed
    ∧ SockEvt.recvdEOF ∈ (handleClientRun jsonLoads decodeUtf8 insertOk ts incoming).1 := by
  refine ⟨?_, ?_, ?_⟩
  · intro d
    show SockEvt.sent d ∉ (recvLoop incoming).1 ++ [SockEvt.closed]
    rw [List.mem_append]
    rintro (hmem | hmem)
    · exact recvLoop_no_sent incoming d hmem
    · simp at hmem
  · show ((recvLoop incoming).1 ++ [SockEvt.closed]).getLast? = some SockEvt.closed
    exact List.getLast?_concat _
  · show SockEvt.recvdEOF ∈ (recvLoop incoming).1 ++ [SockEvt.closed]
    exact List.mem_append_left _ (recvLoop_has_eof incoming)

/-- Claim C2: a POST to `/message` reads the full declared body, extracts
`username` and `message` from the parsed form — empty string when the key
is absent, the first value when present (repeated keys all land in one
value list) — strips both, and builds exactly the two-field
username/message payload for relay. -/
theorem C2_form_extraction_and_payload (parseQs : String → List (String × List String))
    (fs : String → Option String) (relay : Except String Unit) (req : HttpRequest)
    (hpath : req.path = "/message")
    (hcl : req.contentLength = some req.body.data.length)
    (hwf : ∀ kv ∈ parseQs req.body, kv.2 ≠ []) :
    (doPOST parseQs fs relay req).map (fun r => r.payloadBuilt)
      = Except.ok (some (mkPayload
          (pyStrip ((((parseQs req.body).lookup "username").getD [""]).headD ""))
          (pyStrip ((((parseQs req.body).lookup "message").getD [""]).headD "")))) := by
  have hb : bodyRead (req.contentLength.getD 0) req.body = req.body := by
    rw [hcl]
    exact bodyRead_full req.body
  have hu := extractField_eq_headD (parseQs req.body) "username" hwf
  have hm := extractField_eq_headD (parseQs req.body) "message" hwf
  rw [doPOST_message parseQs fs relay req hpath _ _ (by rw [hb, hu]) (by rw [hb, hm])]
  cases relay <;> rfl

/-- Witness for C2: a concrete form with a padded repeated `username` and no
`message` key yields the stripped first username and an empty message. -/
theorem C2_witness :
    (doPOST (fun _ => [("username", [" Al ", "zz"]), ("other", ["1"])]) exFs
        (Except.ok ()) { path := "/message", contentLength := some 1, body := "q" }).map
        (fun r => r.payloadBuilt)
      = Except.ok (some (mkPayload "Al" "")) := by
  have h := C2_form_extraction_and_payload
    (fun _ => [("username", [" Al ", "zz"]), ("other", ["1"])]) exFs (Except.ok ())
    { path := "/message", contentLength := some 1, body := "q" } rfl rfl (by decide)
  rw [h]
  rfl

/-- Claim C3: on the `/message` route the relay is attempted exactly once;
a successful send yields a 302 redirect to `/` delivering exactly the built
payload, and a failed send yields a 500 with a plain-text body containing
the failure reason, with nothing delivered to the ingest worker (hence no
record for that request). -/
theorem C3_relay_success_and_failure (parseQs : String → List (String × List String))
    (fs : String → Option String) (req : HttpRequest) (e : String)
    (hpath : req.path = "/message")
    (hwf : ∀ kv ∈ parseQs (bodyRead (req.contentLength.getD 0) req.body), kv.2 ≠ []) :
    ((doPOST parseQs fs (Except.ok ()) req).map (fun r => (r.response, r.relayAttempts))
        = Except.ok ({ status := 302, contentType := none, location := some "/",
                       body := RespBody.content "" }, 1))
    ∧ ((doPOST parseQs fs (Except.ok ()) req).map (fun r => r.delivered)
        = (doPOST parseQs fs (Except.ok ()) req).map (fun r => r.payloadBuilt))
    ∧ ((doPOST parseQs fs (Except.error e) req).map (fun r => (r.response, r.relayAttempts))
        = Except.ok ({ status := 500, contentType := some "text/plain; charset=utf-8",
                       location := none,
                       body := RespBody.content ("Socket server error: " ++ e) }, 1))
    ∧ ((doPOST parseQs fs (Except.error e) req).map (fun r => r.delivered)
        = Except.ok none) := by
  obtain ⟨u, hu⟩ := extractField_ok _ "username" hwf
  obtain ⟨m, hm⟩ := extractField_ok _ "message" hwf
  rw [doPOST_message parseQs fs (Except.ok ()) req hpath u m hu hm,
      doPOST_message parseQs fs (Except.error e) req hpath u m hu hm]
  exact ⟨rfl, rfl, rfl, rfl⟩

/-- Witness for C3: concrete request with an empty form; success gives the
302 redirect, failure gives the 500 diagnostic and no delivery. -/
theorem C3_witness :
    ((doPOST (fun _ => []) exFs (Except.ok ())
        { path := "/message", contentLength := none, body := "" }).map
        (fun r => (r.response, r.relayAttempts))
      = Except.ok ({ status := 302, contentType := none, location := some "/",
                     body := RespBody.content "" }, 1))
    ∧ ((doPOST (fun _ => []) exFs (Except.error "timed out")
        { path := "/message", contentLength := none, body := "" }).map
        (fun r => (r.response, r.relayAttempts))
      = Except.ok ({ status := 500, contentType := some "text/plain; charset=utf-8",
                     location := none,
                     body := RespBody.content ("Socket server error: " ++ "timed out") }, 1))
    ∧ ((doPOST (fun _ => []) exFs (Except.error "timed out")
        { path := "/message", contentLength := none, body := "" }).map
        (fun r => r.delivered) = Except.ok none) := by
  have h := C3_relay_success_and_failure (fun _ => []) exFs
    { path := "/message", contentLength := none, body := "" } "timed out" rfl (by simp)
  exact ⟨h.1, h.2.2.1, h.2.2.2⟩

/-- Claim C6: the five routed GET paths serve their resources with the
hard-coded content types; every other GET path, and every POST to a path
other than `/message`, takes the 404 path, which serves the custom
`error.html` body when that file exists and the built-in minimal 404
otherwise. -/
theorem C6_routing (fs : String → Option String) (i msgp css png : String)
    (hi : fs "index.html" = some i) (hmsg : fs "message.html" = some msgp)
    (hcss : fs "static/style.css" = some css) (hpng : fs "static/logo.png" = some png) :
    doGET fs "/" = { status := 200, contentType := some "text/html; charset=utf-8",
                     location := none, body := RespBody.content i }
    ∧ doGET fs "/index.html" = { status := 200, contentType := some "text/html; charset=utf-8",
                                 location := none, body := RespBody.content i }
    ∧ doGET fs "/message.html" = { status := 200,
                                   contentType := some "text/html; charset=utf-8",
                                   location := none, body := RespBody.content msgp }
    ∧ doGET fs "/style.css" = { status := 200, contentType := some "text/css; charset=utf-8",
                                location := none, body := RespBody.content css }
    ∧ doGET fs "/logo.png" = { status := 200, contentType := some "image/png",
                               location := none, body := RespBody.content png }
    ∧ (∀ p : String, p ≠ "/" → p ≠ "/index.html" → p ≠ "/message.html" → p ≠ "/style.css" →
        p ≠ "/logo.png" → doGET fs p = respond404 fs)
    ∧ (∀ (parseQs : String → List (String × List String)) (relay : Except String Unit)
        (req : HttpRequest), req.path ≠ "/message" →
        doPOST parseQs fs relay req =
          Except.ok { response := respond404 fs, relayAttempts := 0,
                      payloadBuilt := none, delivered := none })
    ∧ (∀ c, fs "error.html" = some c →
        respond404 fs = { status := 404, contentType := some "text/html; charset=utf-8",
                          location := none, body := RespBody.content c })
    ∧ (fs "error.html" = none → respond404 fs = builtin404) := by
  refine ⟨?_, ?_, ?_, ?_, ?_, ?_, ?_, ?_, ?_⟩
  · simp [doGET, respondFile, hi]
  · simp [doGET, respondFile, hi]
  · simp [doGET, respondFile, hmsg]
  · simp [doGET, respondFile, hcss]
  · simp [doGET, respondFile, hpng]
  · intro p h1 h2 h3 h4 h5
    simp [doGET, h1, h2, h3, h4, h5]
  · intro parseQs relay req hreq
    rw [doPOST, if_pos hreq]
  · intro c hc
    simp [respond404, hc]
  · intro hc
    simp [respond404, hc]

/-- Witness for C6 over the concrete directory `exFs`: the home page is
served, an unknown path falls to the 404 path, and with no `error.html` the
built-in 404 page is used. -/
theorem C6_witness :
    doGET exFs "/" = { status := 200, contentType := some "text/html; charset=utf-8",
                       location := none, body := RespBody.content "IDX" }
    ∧ doGET exFs "/unknown-path" = respond404 exFs
    ∧ respond404 exFs = builtin404 := by
  have h := C6_routing exFs "IDX" "MSG" "CSS" "PNG" rfl rfl rfl rfl
  exact ⟨h.1,
    h.2.2.2.2.2.1 "/unknown-path" (by decide) (by decide) (by decide) (by decide) (by decide),
    h.2.2.2.2.2.2.2.2 rfl⟩

/-- Claim C9: a POST to `/message` with no `Content-Length` header reads a
zero-length body, so both fields default to empty, the all-empty payload is
still relayed, and (when the relay succeeds) the response is the 302
redirect. -/
theorem C9_missing_content_length (parseQs : String → List (String × List String))
    (fs : String → Option String) (req : HttpRequest)
    (hpath : req.path = "/message") (hcl : req.contentLength = none)
    (hq : parseQs "" = []) :
    doPOST parseQs fs (Except.ok ()) req =
      Except.ok { response := { status := 302, contentType := none, location := some "/",
                                body := RespBody.content "" },
                  relayAttempts := 1, payloadBuilt := some (mkPayload "" ""),
                  delivered := some (mkPayload "" "") } := by
  have hb : bodyRead (req.contentLength.getD 0) req.body = "" := by
    rw [hcl]
    exact bodyRead_zero req.body
  have hx : extractField (parseQs (bodyRead (req.contentLength.getD 0) req.body)) "username"
      = Except.ok "" := by
    rw [hb, hq]
    exact extractField_absent _ _ rfl
  have hy : extractField (parseQs (bodyRead (req.contentLength.getD 0) req.body)) "message"
      = Except.ok "" := by
    rw [hb, hq]
    exact extractField_absent _ _ rfl
  rw [doPOST_message parseQs fs (Except.ok ()) req hpath "" "" hx hy]

/-- Witness for C9: concrete request with the header absent and a
non-empty (never read) body. -/
theorem C9_witness :
    doPOST (fun _ => []) exFs (Except.ok ())
        { path := "/message", contentLength := none, body := "username=ghost" } =
      Except.ok { response := { status := 302, contentType := none, location := some "/",
                                body := RespBody.content "" },
                  relayAttempts := 1, payloadBuilt := some (mkPayload "" ""),
                  delivered := some (mkPayload "" "") } :=
  C9_missing_content_length (fun _ => []) exFs
    { path := "/message", contentLength := none, body := "username=ghost" } rfl rfl rfl

/-- Witness for C8: a concrete one-chunk connection ends in a close event
after the end-of-file read. -/
theorem C8_witness :
    ((handleClientRun (fun _ => none) (fun _ => "") (fun _ => true) "T" [[104]]).1.getLast?
        = some SockEvt.closed)
    ∧ SockEvt.recvdEOF ∈ (handleClientRun (fun _ => none) (fun _ => "") (fun _ => true)
        "T" [[104]]).1 := by
  have h := C8_reads_to_eof_never_responds (fun _ => none) (fun _ => "") (fun _ => true)
    "T" [[104]]
  exact ⟨h.2.1, h.2.2⟩

end MsgPipe
